import Mathlib

/-!
Shallow embedding of the two CI scripts of the repository:
`build/ci/create_env_file.py` (the EnvFileWriter of the spec) and
`build/ci/delete_unused_disks.py` (the UnusedDiskReaper of the spec).

The process environment is modelled as a partial map `String → Option String`
(`none` models an unset variable, for which the raw lookup raises `KeyError`),
and the filesystem as a partial map from file name to full content (`none`
models any open or read failure).
-/

namespace EnvFile

/-- Embedding of `get_env_var`: look up an environment variable, mapping the
caught `KeyError` of an unset variable to the empty string. -/
def get_env_var (env : String → Option String) (var : String) : String :=
  (env var).getD ""

/-- Embedding of `get_value_from_file`: read the whole file verbatim, mapping
any caught open or read failure to the empty string. -/
def get_value_from_file (fs : String → Option String) (file : String) : String :=
  (fs file).getD ""

/-- The `str.upper` call of Python applied to a key. All keys the script
passes are ASCII, where per-character upcasing agrees with Python. -/
def pyUpper (s : String) : String :=
  String.mk (s.data.map Char.toUpper)

/-- Embedding of `write_env_to_file`: the list of `(key, value)` pairs the call
appends to the output file. Each emitted pair stands for one written
`KEY=VALUE` CRLF line, see `renderLine`. -/
def write_env_to_file (env : String → Option String) (key : String) :
    List (String × String) :=
  let var := get_env_var env key
  if 0 < var.length then [(pyUpper key, var)] else []

/-- Embedding of one of the four inline file-sourced blocks of the script
body: read `file`, and if the content is non-empty emit one pair mapping
`key` to that content. -/
def fileBlock (fs : String → Option String) (file key : String) :
    List (String × String) :=
  let v := get_value_from_file fs file
  if v ≠ "" then [(key, v)] else []

/-- The hard-coded absolute path written as the value of
`GKE_SERVICE_ACCOUNT_KEY_FILE`. -/
def gkeKeyFilePath : String :=
  "/go/src/github.com/elastic/cloud-on-k8s/build/ci/credentials.json"

/-- Embedding of the `credentials.json` special case of the script body: if the
file is readable and non-empty, emit one pair mapping the fixed key to the
hard-coded path `gkeKeyFilePath`, not to the content of the file. -/
def credsBlock (fs : String → Option String) : List (String × String) :=
  let gcp_creds := get_value_from_file fs "credentials.json"
  if gcp_creds ≠ "" then [("GKE_SERVICE_ACCOUNT_KEY_FILE", gkeKeyFilePath)] else []

/-- Embedding of the module-level script body of `create_env_file.py`: the
ordered list of `(key, value)` pairs written to the file `environment`. -/
def createEnvFile (fs env : String → Option String) : List (String × String) :=
  fileBlock fs "docker_login.file" "ELASTIC_DOCKER_LOGIN"
    ++ fileBlock fs "docker_credentials.file" "ELASTIC_DOCKER_PASSWORD"
    ++ fileBlock fs "aws_access_key.file" "AWS_ACCESS_KEY_ID"
    ++ fileBlock fs "aws_secret_key.file" "AWS_SECRET_ACCESS_KEY"
    ++ credsBlock fs
    ++ write_env_to_file env "OPERATOR_IMAGE"
    ++ write_env_to_file env "LATEST_RELEASED_IMG"
    ++ write_env_to_file env "VERSION"
    ++ write_env_to_file env "SNAPSHOT"
    ++ write_env_to_file env "GCLOUD_PROJECT"
    ++ write_env_to_file env "REGISTRY"
    ++ write_env_to_file env "REPOSITORY"
    ++ write_env_to_file env "IMG_SUFFIX"
    ++ write_env_to_file env "GKE_CLUSTER_NAME"
    ++ write_env_to_file env "TESTS_MATCH"
    ++ write_env_to_file env "GKE_CLUSTER_VERSION"

/-- The text a single emitted pair contributes to the output file: the format
string of the script is `KEY=VALUE` followed by CRLF. -/
def renderLine (kv : String × String) : String :=
  kv.1 ++ "=" ++ kv.2 ++ "\r\n"

/-- Full content of the output file `environment` for a run. -/
def renderEnvFile (fs env : String → Option String) : String :=
  String.join ((createEnvFile fs env).map renderLine)

/-- The eleven environment-variable names the script actually passes to
`write_env_to_file`, in source order. -/
def fixedEnvKeys : List String :=
  ["OPERATOR_IMAGE", "LATEST_RELEASED_IMG", "VERSION", "SNAPSHOT",
   "GCLOUD_PROJECT", "REGISTRY", "REPOSITORY", "IMG_SUFFIX",
   "GKE_CLUSTER_NAME", "TESTS_MATCH", "GKE_CLUSTER_VERSION"]

/-- The thirteen environment-variable names the spec lists in its section 4.1,
in the order the spec lists them. -/
def specListedEnvKeys : List String :=
  ["OPERATOR_IMAGE", "LATEST_RELEASED_IMG", "VERSION", "SNAPSHOT",
   "GCLOUD_PROJECT", "REGISTRY", "REPOSITORY", "IMG_SUFFIX",
   "GKE_CLUSTER_NAME", "TESTS_MATCH", "GKE_CLUSTER_VERSION",
   "STACK_VERSION", "SKIP_DOCKER_COMMAND"]

/-- The file-sourced inputs of the script, as pairs of source file name and
emitted key, in source order. -/
def fileSources : List (String × String) :=
  [("docker_login.file", "ELASTIC_DOCKER_LOGIN"),
   ("docker_credentials.file", "ELASTIC_DOCKER_PASSWORD"),
   ("aws_access_key.file", "AWS_ACCESS_KEY_ID"),
   ("aws_secret_key.file", "AWS_SECRET_ACCESS_KEY"),
   ("credentials.json", "GKE_SERVICE_ACCOUNT_KEY_FILE")]

/-- The fixed priority order of emitted keys as the spec states it: the five
file-sourced keys first, then the thirteen names of section 4.1. -/
def masterKeyOrder : List String :=
  (fileSources.map Prod.snd) ++ specListedEnvKeys

end EnvFile

namespace Reaper

/-- Model of a Python value decoded by `json.loads`. Numeric literals keep
their lexeme: no claim observes a numeric value, only whether a value is a
string, a container, or something else. -/
inductive PyJson where
  | null : PyJson
  | bool (b : Bool) : PyJson
  | num (lit : String) : PyJson
  | str (s : String) : PyJson
  | arr (xs : List PyJson) : PyJson
  | obj (kvs : List (String × PyJson)) : PyJson

/-- JSON whitespace as in the `json` module: space, tab, newline, carriage
return between tokens. -/
def skipWs : List Char → List Char
  | [] => []
  | c :: cs =>
    if c = ' ' ∨ c = '\t' ∨ c = '\n' ∨ c = '\r' then skipWs cs else c :: cs

def hexVal? (c : Char) : Option Nat :=
  if '0' ≤ c ∧ c ≤ '9' then some (c.toNat - '0'.toNat)
  else if 'a' ≤ c ∧ c ≤ 'f' then some (c.toNat - 'a'.toNat + 10)
  else if 'A' ≤ c ∧ c ≤ 'F' then some (c.toNat - 'A'.toNat + 10)
  else none

/-- Decode a JSON string body after the opening quote, as the strict
`scanstring` of the `json` module does: raw control characters are rejected,
the eight simple escapes and `\uXXXX` are decoded, and a high and low
surrogate escape pair is combined into one scalar. A lone surrogate escape
(which Python keeps as a lone surrogate code unit, not representable as a
Lean scalar value) is rejected. Returns the decoded string and the input
after the closing quote. -/
def scanStr (fuel : Nat) (cs : List Char) : Option (String × List Char) :=
  match fuel with
  | 0 => none
  | fuel + 1 =>
    match cs with
    | [] => none
    | c :: rest =>
      if c = '"' then some ("", rest)
      else if c = '\\' then
        match rest with
        | [] => none
        | e :: rest2 =>
          if e = 'u' then
            match rest2 with
            | h1 :: h2 :: h3 :: h4 :: rest3 => do
              let d1 ← hexVal? h1
              let d2 ← hexVal? h2
              let d3 ← hexVal? h3
              let d4 ← hexVal? h4
              let code := ((d1 * 16 + d2) * 16 + d3) * 16 + d4
              if 0xD800 ≤ code ∧ code ≤ 0xDBFF then
                match rest3 with
                | '\\' :: 'u' :: g1 :: g2 :: g3 :: g4 :: rest4 => do
                  let e1 ← hexVal? g1
                  let e2 ← hexVal? g2
                  let e3 ← hexVal? g3
                  let e4 ← hexVal? g4
                  let low := ((e1 * 16 + e2) * 16 + e3) * 16 + e4
                  if 0xDC00 ≤ low ∧ low ≤ 0xDFFF then
                    let ch := Char.ofNat
                      (0x10000 + (code - 0xD800) * 0x400 + (low - 0xDC00))
                    let (s, r) ← scanStr fuel rest4
                    some (String.singleton ch ++ s, r)
                  else none
                | _ => none
              else if 0xDC00 ≤ code ∧ code ≤ 0xDFFF then none
              else do
                let (s, r) ← scanStr fuel rest3
                some (String.singleton (Char.ofNat code) ++ s, r)
            | _ => none
          else do
            let ch ← match e with
              | '"' => some '"'
              | '\\' => some '\\'
              | '/' => some '/'
              | 'b' => some '\x08'
              | 'f' => some '\x0c'
              | 'n' => some '\n'
              | 'r' => some '\r'
              | 't' => some '\t'
              | _ => none
            let (s, r) ← scanStr fuel rest2
            some (String.singleton ch ++ s, r)
      else if c.toNat < 0x20 then none
      else do
        let (s, r) ← scanStr fuel rest
        some (String.singleton c ++ s, r)

/-- Lex a JSON numeric literal at the head of the input, mirroring the number
regular expression of the `json` scanner: optional sign, `0` or a nonzero
digit run, optional fraction, optional exponent. Returns the lexeme. -/
def scanNum (cs : List Char) : Option (List Char × List Char) :=
  let (sign, cs1) := match cs with
    | '-' :: t => (['-'], t)
    | _ => (([] : List Char), cs)
  match cs1 with
  | [] => none
  | c :: t =>
    if ¬ c.isDigit then none
    else
      let (ip, r1) : List Char × List Char :=
        if c = '0' then ([c], t)
        else
          let (ds, r) := t.span (·.isDigit)
          (c :: ds, r)
      let (fp, r2) : List Char × List Char := match r1 with
        | '.' :: u =>
          let (ds, r) := u.span (·.isDigit)
          if ds.isEmpty then (([] : List Char), r1) else ('.' :: ds, r)
        | _ => (([] : List Char), r1)
      let (ep, r3) : List Char × List Char := match r2 with
        | e :: u =>
          if e = 'e' ∨ e = 'E' then
            let (sgn, u2) : List Char × List Char := match u with
              | s :: v => if s = '+' ∨ s = '-' then ([s], v) else (([] : List Char), u)
              | [] => (([] : List Char), u)
            let (ds, r) := u2.span (·.isDigit)
            if ds.isEmpty then (([] : List Char), r2) else (e :: (sgn ++ ds), r)
          else (([] : List Char), r2)
        | [] => (([] : List Char), r2)
      some (sign ++ ip ++ fp ++ ep, r3)

/-- Consume the literal `lit` at the head of the input. -/
def takeLit (lit : List Char) (cs : List Char) : Option (List Char) :=
  match lit, cs with
  | [], rest => some rest
  | l :: ls, c :: rest => if c = l then takeLit ls rest else none
  | _ :: _, [] => none

mutual

/-- One value of the `json` scanner: a string, object, array, keyword,
number, or one of the non-finite names NaN, Infinity, -Infinity that the
Python decoder accepts by default. -/
def parseVal (fuel : Nat) (cs : List Char) : Option (PyJson × List Char) :=
  match fuel with
  | 0 => none
  | fuel + 1 =>
    match cs with
    | [] => none
    | c :: rest =>
      if c = '"' then (scanStr fuel rest).map fun p => (.str p.1, p.2)
      else if c = '{' then
        let cs1 := skipWs rest
        match cs1 with
        | '}' :: r => some (.obj [], r)
        | _ => parseMembers fuel cs1 []
      else if c = '[' then
        let cs1 := skipWs rest
        match cs1 with
        | ']' :: r => some (.arr [], r)
        | _ => parseElems fuel cs1 []
      else
        match takeLit ['n', 'u', 'l', 'l'] cs with
        | some r => some (.null, r)
        | none =>
        match takeLit ['t', 'r', 'u', 'e'] cs with
        | some r => some (.bool true, r)
        | none =>
        match takeLit ['f', 'a', 'l', 's', 'e'] cs with
        | some r => some (.bool false, r)
        | none =>
        match scanNum cs with
        | some (lex, r) => some (.num (String.mk lex), r)
        | none =>
        match takeLit ['N', 'a', 'N'] cs with
        | some r => some (.num "NaN", r)
        | none =>
        match takeLit ['I', 'n', 'f', 'i', 'n', 'i', 't', 'y'] cs with
        | some r => some (.num "Infinity", r)
        | none =>
        match takeLit ['-', 'I', 'n', 'f', 'i', 'n', 'i', 't', 'y'] cs with
        | some r => some (.num "-Infinity", r)
        | none => none

/-- The element loop of a non-empty JSON array: value, then a comma and
further elements or the closing bracket. A trailing comma is rejected since
the next element parse fails on the closing bracket. -/
def parseElems (fuel : Nat) (cs : List Char) (acc : List PyJson) :
    Option (PyJson × List Char) :=
  match fuel with
  | 0 => none
  | fuel + 1 => do
    let (v, r) ← parseVal fuel cs
    match skipWs r with
    | ',' :: r2 => parseElems fuel (skipWs r2) (acc ++ [v])
    | ']' :: r2 => some (.arr (acc ++ [v]), r2)
    | _ => none

/-- The member loop of a non-empty JSON object: a double-quoted key, a colon,
a value, then a comma and further members or the closing brace. -/
def parseMembers (fuel : Nat) (cs : List Char) (acc : List (String × PyJson)) :
    Option (PyJson × List Char) :=
  match fuel with
  | 0 => none
  | fuel + 1 => do
    match cs with
    | '"' :: r => do
      let (k, r1) ← scanStr fuel r
      match skipWs r1 with
      | ':' :: r2 => do
        let (v, r3) ← parseVal fuel (skipWs r2)
        match skipWs r3 with
        | ',' :: r4 => parseMembers fuel (skipWs r4) (acc ++ [(k, v)])
        | '}' :: r4 => some (.obj (acc ++ [(k, v)]), r4)
        | _ => none
      | _ => none
    | _ => none

end

/-- Embedding of `json.loads`: whitespace may surround the single top-level
value, anything else left over is a parse error. The fuel bound
`2 * length + 4` dominates the recursion depth: every two fuel steps consume
at least one input character. -/
def parseJson (s : String) : Option PyJson :=
  match parseVal (2 * s.length + 4) (skipWs s.data) with
  | some (j, rest) => if (skipWs rest).isEmpty then some j else none
  | none => none

end Reaper

namespace Reaper

/-- Python `len` of a decoded JSON value: defined for strings, lists and
dicts, a `TypeError` (`none`) otherwise. Duplicate object keys collapse as
they do in a Python dict. -/
def pyLen : PyJson → Option Nat
  | .str s => some s.length
  | .arr xs => some xs.length
  | .obj kvs => some (kvs.map Prod.fst).eraseDups.length
  | _ => none

/-- Python iteration over a decoded JSON value, for the values `len` accepts:
a list yields its elements, a string its one-character substrings, a dict its
keys (first occurrence order). -/
def pyElems : PyJson → List PyJson
  | .arr xs => xs
  | .str s => s.data.map fun c => .str (String.singleton c)
  | .obj kvs => (kvs.map Prod.fst).eraseDups.map .str
  | _ => []

/-- Python subscript `entry[key]` on a decoded JSON value: on a dict the
latest binding of the key (`KeyError` if absent), a `TypeError` on anything
else. Both exceptions are collapsed to `Except.error ()` since the script
catches everything alike. -/
def pyGetItem (j : PyJson) (key : String) : Except Unit PyJson :=
  match j with
  | .obj kvs =>
    match kvs.reverse.find? (fun kv => kv.1 == key) with
    | some kv => .ok kv.2
    | none => .error ()
  | _ => .error ()

mutual

/-- Python `repr` of a decoded JSON value, used by `pyStr` for values nested
in containers. The quoting of strings inside containers is simplified to a
plain single-quoted form without escape handling; no claim observes it. -/
def pyRepr : PyJson → String
  | .null => "None"
  | .bool true => "True"
  | .bool false => "False"
  | .num lit => lit
  | .str s => "\x27" ++ s ++ "\x27"
  | .arr xs => "[" ++ pyReprElems xs ++ "]"
  | .obj kvs => "\x7b" ++ pyReprMembers kvs ++ "\x7d"

def pyReprElems : List PyJson → String
  | [] => ""
  | [x] => pyRepr x
  | x :: xs => pyRepr x ++ ", " ++ pyReprElems xs

def pyReprMembers : List (String × PyJson) → String
  | [] => ""
  | [(k, v)] => "\x27" ++ k ++ "\x27: " ++ pyRepr v
  | (k, v) :: kvs => "\x27" ++ k ++ "\x27: " ++ pyRepr v ++ ", " ++ pyReprMembers kvs

end

/-- Python `str` of a decoded JSON value, as `.format` interpolates it into
the deletion command. -/
def pyStr : PyJson → String
  | .str s => s
  | j => pyRepr j

/-- Scan for the tail component: the segment accumulated since the last
slash. -/
def splitTailGo : List Char → List Char → List Char
  | [], cur => cur
  | c :: cs, cur => if c = '/' then splitTailGo cs [] else splitTailGo cs (cur ++ [c])

/-- The tail component of `os.path.split` on a POSIX path: everything after
the last slash, the whole string when there is none. -/
def splitTail (s : String) : String :=
  String.mk (splitTailGo s.data [])

/-- One observable side effect of a reaper run: the disk-listing command, a
per-disk deletion command (embedding the `gcloud compute disks delete` call
with its name, project and zone arguments), or a line printed to standard
output. -/
inductive Event where
  | listDisks (project : String) : Event
  | deleteDisk (diskName project zone : String) : Event
  | print (line : String) : Event
deriving DecidableEq

/-- Recogniser for deletion-command events. -/
def Event.isDelete : Event → Bool
  | .deleteDisk _ _ _ => true
  | _ => false

/-- First line the handler of the bare `except` prints. -/
def cantParseMsg : String := "Can\x27t parse JSON:"

/-- Message printed when the parsed listing is empty. -/
def congratsMsg : String := "There is no unused disks. Congratulations!"

/-- The per-entry loop of the script body: for each entry look up `name`,
then split `zone` and issue the deletion command. Any exception (missing key,
non-dict entry, non-string zone) aborts the loop and lands in the `except`
handler, which prints the fixed message and the raw file content. -/
def processEntries (project content : String) : List PyJson → List Event
  | [] => []
  | entry :: rest =>
    match pyGetItem entry "name" with
    | .error _ => [.print cantParseMsg, .print content]
    | .ok nameJ =>
      match pyGetItem entry "zone" with
      | .error _ => [.print cantParseMsg, .print content]
      | .ok (.str z) =>
        .deleteDisk (pyStr nameJ) project (splitTail z)
          :: processEntries project content rest
      | .ok _ => [.print cantParseMsg, .print content]

/-- The guarded body of the script: parse the intermediate file, print the
success message on an empty result, otherwise run the deletion loop; any
exception is caught by the bare `except`, which prints the fixed message and
the raw content. -/
def reaperBody (project content : String) : List Event :=
  match parseJson content with
  | none => [.print cantParseMsg, .print content]
  | some j =>
    match pyLen j with
    | none => [.print cantParseMsg, .print content]
    | some n =>
      if n = 0 then [.print congratsMsg]
      else processEntries project content (pyElems j)

/-- Embedding of the module-level script `delete_unused_disks.py`: the list of
observable events of a run together with a crash flag. The project lookup
`os.environ[..]` happens first; when the variable is unset its `KeyError`
propagates, so the run crashes with no event. Otherwise the listing command
runs (its shell redirection creates the intermediate file, whose content
`content` is an input of the model) and the guarded body follows; the bare
`except` ensures no further failure escapes. -/
def reaperRun (env : String → Option String) (content : String) :
    List Event × Bool :=
  match env "GCLOUD_PROJECT" with
  | none => ([], true)
  | some project => (Event.listDisks project :: reaperBody project content, false)

/-- An entry the deletion loop can process without an exception: a dict with
a `name` binding and a string `zone` binding. -/
def hasNameZone (entry : PyJson) : Bool :=
  match pyGetItem entry "name", pyGetItem entry "zone" with
  | .ok _, .ok (.str _) => true
  | _, _ => false

/-- The deletion command a processable entry gives rise to. -/
def entryEvent (project : String) (entry : PyJson) : Option Event :=
  match pyGetItem entry "name", pyGetItem entry "zone" with
  | .ok nameJ, .ok (.str z) =>
    some (.deleteDisk (pyStr nameJ) project (splitTail z))
  | _, _ => none

end Reaper

namespace EnvFile

lemma length_pos_of_ne_empty (v : String) (h : v ≠ "") : 0 < v.length := by
  cases v with
  | mk data =>
    cases data with
    | nil => cases h rfl
    | cons a l => simp [String.length]

lemma fileBlock_filter_ne (fs : String → Option String) (f k q : String)
    (h : k ≠ q) :
    (fileBlock fs f k).filter (fun kv => kv.1 == q) = [] := by
  simp only [fileBlock]
  split <;> simp [h]

lemma credsBlock_filter_ne (fs : String → Option String) (q : String)
    (h : "GKE_SERVICE_ACCOUNT_KEY_FILE" ≠ q) :
    (credsBlock fs).filter (fun kv => kv.1 == q) = [] := by
  simp only [credsBlock]
  split <;> simp [h]

lemma write_filter_ne (env : String → Option String) (k q : String)
    (h : pyUpper k ≠ q) :
    (write_env_to_file env k).filter (fun kv => kv.1 == q) = [] := by
  simp only [write_env_to_file]
  split <;> simp [h]

lemma write_filter_eq (env : String → Option String) (k v : String)
    (hup : pyUpper k = k) (hv : env k = some v) (hne : v ≠ "") :
    (write_env_to_file env k).filter (fun kv => kv.1 == k) = [(k, v)] := by
  simp only [write_env_to_file, get_env_var, hv, Option.getD_some]
  rw [if_pos (length_pos_of_ne_empty v hne)]
  simp [hup]

/-- Claim C1 fails as stated: the script never writes STACK_VERSION (nor
SKIP_DOCKER_COMMAND). With STACK_VERSION set to the non-empty value 8.6.0 the
output contains zero lines for it, where the claim demands exactly one. -/
theorem C1_counterexample :
    "STACK_VERSION" ∈ specListedEnvKeys ∧
    ((fun v => if v = "STACK_VERSION" then some "8.6.0" else none :
        String → Option String) "STACK_VERSION" = some "8.6.0") ∧
    ("8.6.0" : String) ≠ "" ∧
    (createEnvFile (fun _ => none)
        (fun v => if v = "STACK_VERSION" then some "8.6.0" else none)).countP
      (fun kv => kv.1 == "STACK_VERSION") = 0 := by
  refine ⟨by decide, by decide, by decide, by decide⟩

/-- Claim C1 (amended): for every one of the eleven environment-variable names
the script actually writes (the thirteen of the claim minus STACK_VERSION and
SKIP_DOCKER_COMMAND), if the variable is set to a non-empty value then the
output holds exactly one line for that name, namely NAME=value. -/
theorem C1_amended (fs env : String → Option String) (name v : String)
    (hmem : name ∈ fixedEnvKeys) (hv : env name = some v) (hne : v ≠ "") :
    (createEnvFile fs env).filter (fun kv => kv.1 == name) = [(name, v)] := by
  simp only [fixedEnvKeys, List.mem_cons, List.not_mem_nil, or_false] at hmem
  rcases hmem with rfl | rfl | rfl | rfl | rfl | rfl | rfl | rfl | rfl | rfl | rfl
  · unfold createEnvFile
    simp only [List.filter_append]
    rw [fileBlock_filter_ne _ _ _ _ (by decide), fileBlock_filter_ne _ _ _ _ (by decide),
        fileBlock_filter_ne _ _ _ _ (by decide), fileBlock_filter_ne _ _ _ _ (by decide),
        credsBlock_filter_ne _ _ (by decide),
        write_filter_eq _ _ _ (by decide) hv hne, write_filter_ne _ _ _ (by decide), write_filter_ne _ _ _ (by decide), write_filter_ne _ _ _ (by decide), write_filter_ne _ _ _ (by decide), write_filter_ne _ _ _ (by decide), write_filter_ne _ _ _ (by decide), write_filter_ne _ _ _ (by decide), write_filter_ne _ _ _ (by decide), write_filter_ne _ _ _ (by decide), write_filter_ne _ _ _ (by decide)]
    simp
  · unfold createEnvFile
    simp only [List.filter_append]
    rw [fileBlock_filter_ne _ _ _ _ (by decide), fileBlock_filter_ne _ _ _ _ (by decide),
        fileBlock_filter_ne _ _ _ _ (by decide), fileBlock_filter_ne _ _ _ _ (by decide),
        credsBlock_filter_ne _ _ (by decide),
        write_filter_ne _ _ _ (by decide), write_filter_eq _ _ _ (by decide) hv hne, write_filter_ne _ _ _ (by decide), write_filter_ne _ _ _ (by decide), write_filter_ne _ _ _ (by decide), write_filter_ne _ _ _ (by decide), write_filter_ne _ _ _ (by decide), write_filter_ne _ _ _ (by decide), write_filter_ne _ _ _ (by decide), write_filter_ne _ _ _ (by decide), write_filter_ne _ _ _ (by decide)]
    simp
  · unfold createEnvFile
    simp only [List.filter_append]
    rw [fileBlock_filter_ne _ _ _ _ (by decide), fileBlock_filter_ne _ _ _ _ (by decide),
        fileBlock_filter_ne _ _ _ _ (by decide), fileBlock_filter_ne _ _ _ _ (by decide),
        credsBlock_filter_ne _ _ (by decide),
        write_filter_ne _ _ _ (by decide), write_filter_ne _ _ _ (by decide), write_filter_eq _ _ _ (by decide) hv hne, write_filter_ne _ _ _ (by decide), write_filter_ne _ _ _ (by decide), write_filter_ne _ _ _ (by decide), write_filter_ne _ _ _ (by decide), write_filter_ne _ _ _ (by decide), write_filter_ne _ _ _ (by decide), write_filter_ne _ _ _ (by decide), write_filter_ne _ _ _ (by decide)]
    simp
  · unfold createEnvFile
    simp only [List.filter_append]
    rw [fileBlock_filter_ne _ _ _ _ (by decide), fileBlock_filter_ne _ _ _ _ (by decide),
        fileBlock_filter_ne _ _ _ _ (by decide), fileBlock_filter_ne _ _ _ _ (by decide),
        credsBlock_filter_ne _ _ (by decide),
        write_filter_ne _ _ _ (by decide), write_filter_ne _ _ _ (by decide), write_filter_ne _ _ _ (by decide), write_filter_eq _ _ _ (by decide) hv hne, write_filter_ne _ _ _ (by decide), write_filter_ne _ _ _ (by decide), write_filter_ne _ _ _ (by decide), write_filter_ne _ _ _ (by decide), write_filter_ne _ _ _ (by decide), write_filter_ne _ _ _ (by decide), write_filter_ne _ _ _ (by decide)]
    simp
  · unfold createEnvFile
    simp only [List.filter_append]
    rw [fileBlock_filter_ne _ _ _ _ (by decide), fileBlock_filter_ne _ _ _ _ (by decide),
        fileBlock_filter_ne _ _ _ _ (by decide), fileBlock_filter_ne _ _ _ _ (by decide),
        credsBlock_filter_ne _ _ (by decide),
        write_filter_ne _ _ _ (by decide), write_filter_ne _ _ _ (by decide), write_filter_ne _ _ _ (by decide), write_filter_ne _ _ _ (by decide), write_filter_eq _ _ _ (by decide) hv hne, write_filter_ne _ _ _ (by decide), write_filter_ne _ _ _ (by decide), write_filter_ne _ _ _ (by decide), write_filter_ne _ _ _ (by decide), write_filter_ne _ _ _ (by decide), write_filter_ne _ _ _ (by decide)]
    simp
  · unfold createEnvFile
    simp only [List.filter_append]
    rw [fileBlock_filter_ne _ _ _ _ (by decide), fileBlock_filter_ne _ _ _ _ (by decide),
        fileBlock_filter_ne _ _ _ _ (by decide), fileBlock_filter_ne _ _ _ _ (by decide),
        credsBlock_filter_ne _ _ (by decide),
        write_filter_ne _ _ _ (by decide), write_filter_ne _ _ _ (by decide), write_filter_ne _ _ _ (by decide), write_filter_ne _ _ _ (by decide), write_filter_ne _ _ _ (by decide), write_filter_eq _ _ _ (by decide) hv hne, write_filter_ne _ _ _ (by decide), write_filter_ne _ _ _ (by decide), write_filter_ne _ _ _ (by decide), write_filter_ne _ _ _ (by decide), write_filter_ne _ _ _ (by decide)]
    simp
  · unfold createEnvFile
    simp only [List.filter_append]
    rw [fileBlock_filter_ne _ _ _ _ (by decide), fileBlock_filter_ne _ _ _ _ (by decide),
        fileBlock_filter_ne _ _ _ _ (by decide), fileBlock_filter_ne _ _ _ _ (by decide),
        credsBlock_filter_ne _ _ (by decide),
        write_filter_ne _ _ _ (by decide), write_filter_ne _ _ _ (by decide), write_filter_ne _ _ _ (by decide), write_filter_ne _ _ _ (by decide), write_filter_ne _ _ _ (by decide), write_filter_ne _ _ _ (by decide), write_filter_eq _ _ _ (by decide) hv hne, write_filter_ne _ _ _ (by decide), write_filter_ne _ _ _ (by decide), write_filter_ne _ _ _ (by decide), write_filter_ne _ _ _ (by decide)]
    simp
  · unfold createEnvFile
    simp only [List.filter_append]
    rw [fileBlock_filter_ne _ _ _ _ (by decide), fileBlock_filter_ne _ _ _ _ (by decide),
        fileBlock_filter_ne _ _ _ _ (by decide), fileBlock_filter_ne _ _ _ _ (by decide),
        credsBlock_filter_ne _ _ (by decide),
        write_filter_ne _ _ _ (by decide), write_filter_ne _ _ _ (by decide), write_filter_ne _ _ _ (by decide), write_filter_ne _ _ _ (by decide), write_filter_ne _ _ _ (by decide), write_filter_ne _ _ _ (by decide), write_filter_ne _ _ _ (by decide), write_filter_eq _ _ _ (by decide) hv hne, write_filter_ne _ _ _ (by decide), write_filter_ne _ _ _ (by decide), write_filter_ne _ _ _ (by decide)]
    simp
  · unfold createEnvFile
    simp only [List.filter_append]
    rw [fileBlock_filter_ne _ _ _ _ (by decide), fileBlock_filter_ne _ _ _ _ (by decide),
        fileBlock_filter_ne _ _ _ _ (by decide), fileBlock_filter_ne _ _ _ _ (by decide),
        credsBlock_filter_ne _ _ (by decide),
        write_filter_ne _ _ _ (by decide), write_filter_ne _ _ _ (by decide), write_filter_ne _ _ _ (by decide), write_filter_ne _ _ _ (by decide), write_filter_ne _ _ _ (by decide), write_filter_ne _ _ _ (by decide), write_filter_ne _ _ _ (by decide), write_filter_ne _ _ _ (by decide), write_filter_eq _ _ _ (by decide) hv hne, write_filter_ne _ _ _ (by decide), write_filter_ne _ _ _ (by decide)]
    simp
  · unfold createEnvFile
    simp only [List.filter_append]
    rw [fileBlock_filter_ne _ _ _ _ (by decide), fileBlock_filter_ne _ _ _ _ (by decide),
        fileBlock_filter_ne _ _ _ _ (by decide), fileBlock_filter_ne _ _ _ _ (by decide),
        credsBlock_filter_ne _ _ (by decide),
        write_filter_ne _ _ _ (by decide), write_filter_ne _ _ _ (by decide), write_filter_ne _ _ _ (by decide), write_filter_ne _ _ _ (by decide), write_filter_ne _ _ _ (by decide), write_filter_ne _ _ _ (by decide), write_filter_ne _ _ _ (by decide), write_filter_ne _ _ _ (by decide), write_filter_ne _ _ _ (by decide), write_filter_eq _ _ _ (by decide) hv hne, write_filter_ne _ _ _ (by decide)]
    simp
  · unfold createEnvFile
    simp only [List.filter_append]
    rw [fileBlock_filter_ne _ _ _ _ (by decide), fileBlock_filter_ne _ _ _ _ (by decide),
        fileBlock_filter_ne _ _ _ _ (by decide), fileBlock_filter_ne _ _ _ _ (by decide),
        credsBlock_filter_ne _ _ (by decide),
        write_filter_ne _ _ _ (by decide), write_filter_ne _ _ _ (by decide), write_filter_ne _ _ _ (by decide), write_filter_ne _ _ _ (by decide), write_filter_ne _ _ _ (by decide), write_filter_ne _ _ _ (by decide), write_filter_ne _ _ _ (by decide), write_filter_ne _ _ _ (by decide), write_filter_ne _ _ _ (by decide), write_filter_ne _ _ _ (by decide), write_filter_eq _ _ _ (by decide) hv hne]
    simp

/-- Witness for C1 (amended) at VERSION set to 1.2.3. -/
theorem C1_witness :
    (createEnvFile (fun _ => none)
        (fun x => if x = "VERSION" then some "1.2.3" else none)).filter
      (fun kv => kv.1 == "VERSION") = [("VERSION", "1.2.3")] :=
  C1_amended _ _ _ _ (by decide) (by decide) (by decide)

end EnvFile

namespace EnvFile

lemma ne_empty_of_length_pos (v : String) (h : 0 < v.length) : v ≠ "" := by
  intro he
  subst he
  simp at h

lemma credsBlock_filter_eq (fs : String → Option String) (c : String)
    (hv : fs "credentials.json" = some c) (hne : c ≠ "") :
    (credsBlock fs).filter (fun kv => kv.1 == "GKE_SERVICE_ACCOUNT_KEY_FILE") =
      [("GKE_SERVICE_ACCOUNT_KEY_FILE", gkeKeyFilePath)] := by
  simp only [credsBlock, get_value_from_file, hv, Option.getD_some]
  rw [if_pos hne]
  simp

lemma write_env_nil (env : String → Option String) (k : String)
    (h : get_env_var env k = "") : write_env_to_file env k = [] := by
  simp only [write_env_to_file, h]
  simp

lemma fileBlock_nil (fs : String → Option String) (f k : String)
    (h : get_value_from_file fs f = "") : fileBlock fs f k = [] := by
  simp only [fileBlock, h]
  simp

lemma credsBlock_nil (fs : String → Option String)
    (h : get_value_from_file fs "credentials.json" = "") : credsBlock fs = [] := by
  simp only [credsBlock, h]
  simp

lemma fileBlock_snd_ne (fs : String → Option String) (f k : String)
    (kv : String × String) (h : kv ∈ fileBlock fs f k) : kv.2 ≠ "" := by
  simp only [fileBlock] at h
  split at h
  · simp only [List.mem_singleton] at h
    subst h
    assumption
  · simp at h

lemma credsBlock_snd_ne (fs : String → Option String)
    (kv : String × String) (h : kv ∈ credsBlock fs) : kv.2 ≠ "" := by
  simp only [credsBlock] at h
  split at h
  · simp only [List.mem_singleton] at h
    subst h
    decide
  · simp at h

lemma write_snd_ne (env : String → Option String) (k : String)
    (kv : String × String) (h : kv ∈ write_env_to_file env k) : kv.2 ≠ "" := by
  simp only [write_env_to_file] at h
  split at h
  · simp only [List.mem_singleton] at h
    subst h
    exact ne_empty_of_length_pos _ (by assumption)
  · simp at h

/-- Claim C5: with a readable non-empty `credentials.json` of any content, the
output holds exactly the synthetic line mapping GKE_SERVICE_ACCOUNT_KEY_FILE
to the hard-coded path, never to the content of the file. -/
theorem C5_synthetic_creds_line (fs env : String → Option String) (c : String)
    (hv : fs "credentials.json" = some c) (hne : c ≠ "") :
    (createEnvFile fs env).filter (fun kv => kv.1 == "GKE_SERVICE_ACCOUNT_KEY_FILE") =
      [("GKE_SERVICE_ACCOUNT_KEY_FILE", gkeKeyFilePath)] := by
  unfold createEnvFile
  simp only [List.filter_append]
  rw [fileBlock_filter_ne _ _ _ _ (by decide), fileBlock_filter_ne _ _ _ _ (by decide),
      fileBlock_filter_ne _ _ _ _ (by decide), fileBlock_filter_ne _ _ _ _ (by decide),
      credsBlock_filter_eq _ _ hv hne,
      write_filter_ne _ _ _ (by decide), write_filter_ne _ _ _ (by decide),
      write_filter_ne _ _ _ (by decide), write_filter_ne _ _ _ (by decide),
      write_filter_ne _ _ _ (by decide), write_filter_ne _ _ _ (by decide),
      write_filter_ne _ _ _ (by decide), write_filter_ne _ _ _ (by decide),
      write_filter_ne _ _ _ (by decide), write_filter_ne _ _ _ (by decide),
      write_filter_ne _ _ _ (by decide)]
  simp

/-- Witness for C5 at an arbitrary non-empty content. -/
theorem C5_witness :
    (createEnvFile (fun f => if f = "credentials.json" then some "secret-key-material" else none)
        (fun _ => none)).filter (fun kv => kv.1 == "GKE_SERVICE_ACCOUNT_KEY_FILE") =
      [("GKE_SERVICE_ACCOUNT_KEY_FILE", gkeKeyFilePath)] :=
  C5_synthetic_creds_line _ _ "secret-key-material" (by decide) (by decide)

/-- Claim C8: the two lookup helpers are total. A readable file is returned
verbatim and any read failure maps to the empty string; a set variable is
returned verbatim and an unset one maps to the empty string. -/
theorem C8_total_lookups :
    (∀ (fs : String → Option String) (f c : String),
        fs f = some c → get_value_from_file fs f = c) ∧
    (∀ (fs : String → Option String) (f : String),
        fs f = none → get_value_from_file fs f = "") ∧
    (∀ (env : String → Option String) (v s : String),
        env v = some s → get_env_var env v = s) ∧
    (∀ (env : String → Option String) (v : String),
        env v = none → get_env_var env v = "") := by
  refine ⟨?_, ?_, ?_, ?_⟩ <;> intros <;> simp [get_value_from_file, get_env_var, *]

/-- Witness for C8 at concrete maps. -/
theorem C8_witness :
    get_value_from_file (fun _ => some "raw-content") "any.file" = "raw-content" ∧
    get_value_from_file (fun _ => none) "any.file" = "" ∧
    get_env_var (fun _ => some "val") "VAR" = "val" ∧
    get_env_var (fun _ => none) "VAR" = "" :=
  ⟨C8_total_lookups.1 _ _ _ rfl, C8_total_lookups.2.1 _ _ rfl,
   C8_total_lookups.2.2.1 _ _ _ rfl, C8_total_lookups.2.2.2 _ _ rfl⟩

end EnvFile

namespace EnvFile

/-- Claim C9: a pair is emitted only with a non-empty value. First conjunct:
every emitted value is non-empty. Second: an env-sourced key whose resolved
value is empty gets no line. Third: a file-sourced key whose source file
resolves to the empty string gets no line. -/
theorem C9_nonempty_invariant :
    (∀ (fs env : String → Option String) (kv : String × String),
        kv ∈ createEnvFile fs env → kv.2 ≠ "") ∧
    (∀ (fs env : String → Option String) (k : String), k ∈ fixedEnvKeys →
        get_env_var env k = "" →
        (createEnvFile fs env).filter (fun kv => kv.1 == k) = []) ∧
    (∀ (fs env : String → Option String) (f k : String), (f, k) ∈ fileSources →
        get_value_from_file fs f = "" →
        (createEnvFile fs env).filter (fun kv => kv.1 == k) = []) := by
  refine ⟨?_, ?_, ?_⟩
  · intro fs env kv h
    simp only [createEnvFile, List.mem_append, or_assoc] at h
    rcases h with h | h | h | h | h | h | h | h | h | h | h | h | h | h | h | h <;>
      first
        | exact fileBlock_snd_ne _ _ _ _ h
        | exact credsBlock_snd_ne _ _ h
        | exact write_snd_ne _ _ _ h
  · intro fs env k hmem hval
    simp only [fixedEnvKeys, List.mem_cons, List.not_mem_nil, or_false] at hmem
    rcases hmem with rfl | rfl | rfl | rfl | rfl | rfl | rfl | rfl | rfl | rfl | rfl
    · unfold createEnvFile
      rw [write_env_nil _ _ hval]
      simp only [List.filter_append]
      rw [fileBlock_filter_ne _ _ _ _ (by decide), fileBlock_filter_ne _ _ _ _ (by decide),
          fileBlock_filter_ne _ _ _ _ (by decide), fileBlock_filter_ne _ _ _ _ (by decide),
          credsBlock_filter_ne _ _ (by decide), write_filter_ne _ _ _ (by decide), write_filter_ne _ _ _ (by decide), write_filter_ne _ _ _ (by decide), write_filter_ne _ _ _ (by decide), write_filter_ne _ _ _ (by decide), write_filter_ne _ _ _ (by decide), write_filter_ne _ _ _ (by decide), write_filter_ne _ _ _ (by decide), write_filter_ne _ _ _ (by decide), write_filter_ne _ _ _ (by decide)]
      simp
    · unfold createEnvFile
      rw [write_env_nil _ _ hval]
      simp only [List.filter_append]
      rw [fileBlock_filter_ne _ _ _ _ (by decide), fileBlock_filter_ne _ _ _ _ (by decide),
          fileBlock_filter_ne _ _ _ _ (by decide), fileBlock_filter_ne _ _ _ _ (by decide),
          credsBlock_filter_ne _ _ (by decide), write_filter_ne _ _ _ (by decide), write_filter_ne _ _ _ (by decide), write_filter_ne _ _ _ (by decide), write_filter_ne _ _ _ (by decide), write_filter_ne _ _ _ (by decide), write_filter_ne _ _ _ (by decide), write_filter_ne _ _ _ (by decide), write_filter_ne _ _ _ (by decide), write_filter_ne _ _ _ (by decide), write_filter_ne _ _ _ (by decide)]
      simp
    · unfold createEnvFile
      rw [write_env_nil _ _ hval]
      simp only [List.filter_append]
      rw [fileBlock_filter_ne _ _ _ _ (by decide), fileBlock_filter_ne _ _ _ _ (by decide),
          fileBlock_filter_ne _ _ _ _ (by decide), fileBlock_filter_ne _ _ _ _ (by decide),
          credsBlock_filter_ne _ _ (by decide), write_filter_ne _ _ _ (by decide), write_filter_ne _ _ _ (by decide), write_filter_ne _ _ _ (by decide), write_filter_ne _ _ _ (by decide), write_filter_ne _ _ _ (by decide), write_filter_ne _ _ _ (by decide), write_filter_ne _ _ _ (by decide), write_filter_ne _ _ _ (by decide), write_filter_ne _ _ _ (by decide), write_filter_ne _ _ _ (by decide)]
      simp
    · unfold createEnvFile
      rw [write_env_nil _ _ hval]
      simp only [List.filter_append]
      rw [fileBlock_filter_ne _ _ _ _ (by decide), fileBlock_filter_ne _ _ _ _ (by decide),
          fileBlock_filter_ne _ _ _ _ (by decide), fileBlock_filter_ne _ _ _ _ (by decide),
          credsBlock_filter_ne _ _ (by decide), write_filter_ne _ _ _ (by decide), write_filter_ne _ _ _ (by decide), write_filter_ne _ _ _ (by decide), write_filter_ne _ _ _ (by decide), write_filter_ne _ _ _ (by decide), write_filter_ne _ _ _ (by decide), write_filter_ne _ _ _ (by decide), write_filter_ne _ _ _ (by decide), write_filter_ne _ _ _ (by decide), write_filter_ne _ _ _ (by decide)]
      simp
    · unfold createEnvFile
      rw [write_env_nil _ _ hval]
      simp only [List.filter_append]
      rw [fileBlock_filter_ne _ _ _ _ (by decide), fileBlock_filter_ne _ _ _ _ (by decide),
          fileBlock_filter_ne _ _ _ _ (by decide), fileBlock_filter_ne _ _ _ _ (by decide),
          credsBlock_filter_ne _ _ (by decide), write_filter_ne _ _ _ (by decide), write_filter_ne _ _ _ (by decide), write_filter_ne _ _ _ (by decide), write_filter_ne _ _ _ (by decide), write_filter_ne _ _ _ (by decide), write_filter_ne _ _ _ (by decide), write_filter_ne _ _ _ (by decide), write_filter_ne _ _ _ (by decide), write_filter_ne _ _ _ (by decide), write_filter_ne _ _ _ (by decide)]
      simp
    · unfold createEnvFile
      rw [write_env_nil _ _ hval]
      simp only [List.filter_append]
      rw [fileBlock_filter_ne _ _ _ _ (by decide), fileBlock_filter_ne _ _ _ _ (by decide),
          fileBlock_filter_ne _ _ _ _ (by decide), fileBlock_filter_ne _ _ _ _ (by decide),
          credsBlock_filter_ne _ _ (by decide), write_filter_ne _ _ _ (by decide), write_filter_ne _ _ _ (by decide), write_filter_ne _ _ _ (by decide), write_filter_ne _ _ _ (by decide), write_filter_ne _ _ _ (by decide), write_filter_ne _ _ _ (by decide), write_filter_ne _ _ _ (by decide), write_filter_ne _ _ _ (by decide), write_filter_ne _ _ _ (by decide), write_filter_ne _ _ _ (by decide)]
      simp
    · unfold createEnvFile
      rw [write_env_nil _ _ hval]
      simp only [List.filter_append]
      rw [fileBlock_filter_ne _ _ _ _ (by decide), fileBlock_filter_ne _ _ _ _ (by decide),
          fileBlock_filter_ne _ _ _ _ (by decide), fileBlock_filter_ne _ _ _ _ (by decide),
          credsBlock_filter_ne _ _ (by decide), write_filter_ne _ _ _ (by decide), write_filter_ne _ _ _ (by decide), write_filter_ne _ _ _ (by decide), write_filter_ne _ _ _ (by decide), write_filter_ne _ _ _ (by decide), write_filter_ne _ _ _ (by decide), write_filter_ne _ _ _ (by decide), write_filter_ne _ _ _ (by decide), write_filter_ne _ _ _ (by decide), write_filter_ne _ _ _ (by decide)]
      simp
    · unfold createEnvFile
      rw [write_env_nil _ _ hval]
      simp only [List.filter_append]
      rw [fileBlock_filter_ne _ _ _ _ (by decide), fileBlock_filter_ne _ _ _ _ (by decide),
          fileBlock_filter_ne _ _ _ _ (by decide), fileBlock_filter_ne _ _ _ _ (by decide),
          credsBlock_filter_ne _ _ (by decide), write_filter_ne _ _ _ (by decide), write_filter_ne _ _ _ (by decide), write_filter_ne _ _ _ (by decide), write_filter_ne _ _ _ (by decide), write_filter_ne _ _ _ (by decide), write_filter_ne _ _ _ (by decide), write_filter_ne _ _ _ (by decide), write_filter_ne _ _ _ (by decide), write_filter_ne _ _ _ (by decide), write_filter_ne _ _ _ (by decide)]
      simp
    · unfold createEnvFile
      rw [write_env_nil _ _ hval]
      simp only [List.filter_append]
      rw [fileBlock_filter_ne _ _ _ _ (by decide), fileBlock_filter_ne _ _ _ _ (by decide),
          fileBlock_filter_ne _ _ _ _ (by decide), fileBlock_filter_ne _ _ _ _ (by decide),
          credsBlock_filter_ne _ _ (by decide), write_filter_ne _ _ _ (by decide), write_filter_ne _ _ _ (by decide), write_filter_ne _ _ _ (by decide), write_filter_ne _ _ _ (by decide), write_filter_ne _ _ _ (by decide), write_filter_ne _ _ _ (by decide), write_filter_ne _ _ _ (by decide), write_filter_ne _ _ _ (by decide), write_filter_ne _ _ _ (by decide), write_filter_ne _ _ _ (by decide)]
      simp
    · unfold createEnvFile
      rw [write_env_nil _ _ hval]
      simp only [List.filter_append]
      rw [fileBlock_filter_ne _ _ _ _ (by decide), fileBlock_filter_ne _ _ _ _ (by decide),
          fileBlock_filter_ne _ _ _ _ (by decide), fileBlock_filter_ne _ _ _ _ (by decide),
          credsBlock_filter_ne _ _ (by decide), write_filter_ne _ _ _ (by decide), write_filter_ne _ _ _ (by decide), write_filter_ne _ _ _ (by decide), write_filter_ne _ _ _ (by decide), write_filter_ne _ _ _ (by decide), write_filter_ne _ _ _ (by decide), write_filter_ne _ _ _ (by decide), write_filter_ne _ _ _ (by decide), write_filter_ne _ _ _ (by decide), write_filter_ne _ _ _ (by decide)]
      simp
    · unfold createEnvFile
      rw [write_env_nil _ _ hval]
      simp only [List.filter_append]
      rw [fileBlock_filter_ne _ _ _ _ (by decide), fileBlock_filter_ne _ _ _ _ (by decide),
          fileBlock_filter_ne _ _ _ _ (by decide), fileBlock_filter_ne _ _ _ _ (by decide),
          credsBlock_filter_ne _ _ (by decide), write_filter_ne _ _ _ (by decide), write_filter_ne _ _ _ (by decide), write_filter_ne _ _ _ (by decide), write_filter_ne _ _ _ (by decide), write_filter_ne _ _ _ (by decide), write_filter_ne _ _ _ (by decide), write_filter_ne _ _ _ (by decide), write_filter_ne _ _ _ (by decide), write_filter_ne _ _ _ (by decide), write_filter_ne _ _ _ (by decide)]
      simp
  · intro fs env f k hmem hval
    simp only [fileSources, List.mem_cons, List.not_mem_nil, or_false,
      Prod.mk.injEq] at hmem
    rcases hmem with ⟨rfl, rfl⟩ | ⟨rfl, rfl⟩ | ⟨rfl, rfl⟩ | ⟨rfl, rfl⟩ | ⟨rfl, rfl⟩
    · unfold createEnvFile
      rw [fileBlock_nil _ _ _ hval]
      simp only [List.filter_append]
      rw [fileBlock_filter_ne _ _ _ _ (by decide), fileBlock_filter_ne _ _ _ _ (by decide), fileBlock_filter_ne _ _ _ _ (by decide), credsBlock_filter_ne _ _ (by decide), write_filter_ne _ _ _ (by decide), write_filter_ne _ _ _ (by decide), write_filter_ne _ _ _ (by decide), write_filter_ne _ _ _ (by decide), write_filter_ne _ _ _ (by decide), write_filter_ne _ _ _ (by decide), write_filter_ne _ _ _ (by decide), write_filter_ne _ _ _ (by decide), write_filter_ne _ _ _ (by decide), write_filter_ne _ _ _ (by decide), write_filter_ne _ _ _ (by decide)]
      simp
    · unfold createEnvFile
      rw [fileBlock_nil _ _ _ hval]
      simp only [List.filter_append]
      rw [fileBlock_filter_ne _ _ _ _ (by decide), fileBlock_filter_ne _ _ _ _ (by decide), fileBlock_filter_ne _ _ _ _ (by decide), credsBlock_filter_ne _ _ (by decide), write_filter_ne _ _ _ (by decide), write_filter_ne _ _ _ (by decide), write_filter_ne _ _ _ (by decide), write_filter_ne _ _ _ (by decide), write_filter_ne _ _ _ (by decide), write_filter_ne _ _ _ (by decide), write_filter_ne _ _ _ (by decide), write_filter_ne _ _ _ (by decide), write_filter_ne _ _ _ (by decide), write_filter_ne _ _ _ (by decide), write_filter_ne _ _ _ (by decide)]
      simp
    · unfold createEnvFile
      rw [fileBlock_nil _ _ _ hval]
      simp only [List.filter_append]
      rw [fileBlock_filter_ne _ _ _ _ (by decide), fileBlock_filter_ne _ _ _ _ (by decide), fileBlock_filter_ne _ _ _ _ (by decide), credsBlock_filter_ne _ _ (by decide), write_filter_ne _ _ _ (by decide), write_filter_ne _ _ _ (by decide), write_filter_ne _ _ _ (by decide), write_filter_ne _ _ _ (by decide), write_filter_ne _ _ _ (by decide), write_filter_ne _ _ _ (by decide), write_filter_ne _ _ _ (by decide), write_filter_ne _ _ _ (by decide), write_filter_ne _ _ _ (by decide), write_filter_ne _ _ _ (by decide), write_filter_ne _ _ _ (by decide)]
      simp
    · unfold createEnvFile
      rw [fileBlock_nil _ _ _ hval]
      simp only [List.filter_append]
      rw [fileBlock_filter_ne _ _ _ _ (by decide), fileBlock_filter_ne _ _ _ _ (by decide), fileBlock_filter_ne _ _ _ _ (by decide), credsBlock_filter_ne _ _ (by decide), write_filter_ne _ _ _ (by decide), write_filter_ne _ _ _ (by decide), write_filter_ne _ _ _ (by decide), write_filter_ne _ _ _ (by decide), write_filter_ne _ _ _ (by decide), write_filter_ne _ _ _ (by decide), write_filter_ne _ _ _ (by decide), write_filter_ne _ _ _ (by decide), write_filter_ne _ _ _ (by decide), write_filter_ne _ _ _ (by decide), write_filter_ne _ _ _ (by decide)]
      simp
    · unfold createEnvFile
      rw [credsBlock_nil _ hval]
      simp only [List.filter_append]
      rw [fileBlock_filter_ne _ _ _ _ (by decide), fileBlock_filter_ne _ _ _ _ (by decide), fileBlock_filter_ne _ _ _ _ (by decide), fileBlock_filter_ne _ _ _ _ (by decide), write_filter_ne _ _ _ (by decide), write_filter_ne _ _ _ (by decide), write_filter_ne _ _ _ (by decide), write_filter_ne _ _ _ (by decide), write_filter_ne _ _ _ (by decide), write_filter_ne _ _ _ (by decide), write_filter_ne _ _ _ (by decide), write_filter_ne _ _ _ (by decide), write_filter_ne _ _ _ (by decide), write_filter_ne _ _ _ (by decide), write_filter_ne _ _ _ (by decide)]
      simp

/-- Witness for C9: a run where VERSION is set non-empty and everything else
is absent emits the VERSION pair with its non-empty value and no line for the
unset SNAPSHOT key or the unreadable docker login file. -/
theorem C9_witness :
    (("VERSION", "1.2.3") : String × String).2 ≠ "" ∧
    (createEnvFile (fun _ => none)
        (fun x => if x = "VERSION" then some "1.2.3" else none)).filter
      (fun kv => kv.1 == "SNAPSHOT") = [] ∧
    (createEnvFile (fun _ => none)
        (fun x => if x = "VERSION" then some "1.2.3" else none)).filter
      (fun kv => kv.1 == "ELASTIC_DOCKER_LOGIN") = [] :=
  ⟨C9_nonempty_invariant.1 (fun _ => none)
      (fun x => if x = "VERSION" then some "1.2.3" else none) _ (by decide),
   C9_nonempty_invariant.2.1 _ _ _ (by decide) (by decide),
   C9_nonempty_invariant.2.2 _ _ "docker_login.file" _ (by decide) (by decide)⟩

end EnvFile

namespace EnvFile

lemma fileBlock_keys_sub (fs : String → Option String) (f k : String) :
    ((fileBlock fs f k).map Prod.fst).Sublist [k] := by
  simp only [fileBlock]
  split <;> simp

lemma credsBlock_keys_sub (fs : String → Option String) :
    ((credsBlock fs).map Prod.fst).Sublist ["GKE_SERVICE_ACCOUNT_KEY_FILE"] := by
  simp only [credsBlock]
  split <;> simp

lemma write_keys_sub (env : String → Option String) (k : String) :
    ((write_env_to_file env k).map Prod.fst).Sublist [pyUpper k] := by
  simp only [write_env_to_file]
  split <;> simp

/-- Claim C10: the keys of the emitted lines always form a sublist of the
fixed priority order, the five file-sourced keys first in source order, then
the environment-sourced names in the order of section 4.1. -/
theorem C10_emission_order (fs env : String → Option String) :
    ((createEnvFile fs env).map Prod.fst).Sublist masterKeyOrder := by
  have h1 : ((createEnvFile fs env).map Prod.fst).Sublist
      ((["ELASTIC_DOCKER_LOGIN"] ++ ["ELASTIC_DOCKER_PASSWORD"] ++ ["AWS_ACCESS_KEY_ID"]
        ++ ["AWS_SECRET_ACCESS_KEY"] ++ ["GKE_SERVICE_ACCOUNT_KEY_FILE"]
        ++ [pyUpper "OPERATOR_IMAGE"] ++ [pyUpper "LATEST_RELEASED_IMG"]
        ++ [pyUpper "VERSION"] ++ [pyUpper "SNAPSHOT"] ++ [pyUpper "GCLOUD_PROJECT"]
        ++ [pyUpper "REGISTRY"] ++ [pyUpper "REPOSITORY"] ++ [pyUpper "IMG_SUFFIX"]
        ++ [pyUpper "GKE_CLUSTER_NAME"] ++ [pyUpper "TESTS_MATCH"]
        ++ [pyUpper "GKE_CLUSTER_VERSION"] : List String)) := by
    unfold createEnvFile
    simp only [List.map_append]
    exact ((((((((((((((((fileBlock_keys_sub fs _ _).append
      (fileBlock_keys_sub fs _ _)).append
      (fileBlock_keys_sub fs _ _)).append
      (fileBlock_keys_sub fs _ _)).append
      (credsBlock_keys_sub fs)).append
      (write_keys_sub env _)).append
      (write_keys_sub env _)).append
      (write_keys_sub env _)).append
      (write_keys_sub env _)).append
      (write_keys_sub env _)).append
      (write_keys_sub env _)).append
      (write_keys_sub env _)).append
      (write_keys_sub env _)).append
      (write_keys_sub env _)).append
      (write_keys_sub env _)).append
      (write_keys_sub env _))
  have h2 : (["ELASTIC_DOCKER_LOGIN"] ++ ["ELASTIC_DOCKER_PASSWORD"] ++ ["AWS_ACCESS_KEY_ID"]
        ++ ["AWS_SECRET_ACCESS_KEY"] ++ ["GKE_SERVICE_ACCOUNT_KEY_FILE"]
        ++ [pyUpper "OPERATOR_IMAGE"] ++ [pyUpper "LATEST_RELEASED_IMG"]
        ++ [pyUpper "VERSION"] ++ [pyUpper "SNAPSHOT"] ++ [pyUpper "GCLOUD_PROJECT"]
        ++ [pyUpper "REGISTRY"] ++ [pyUpper "REPOSITORY"] ++ [pyUpper "IMG_SUFFIX"]
        ++ [pyUpper "GKE_CLUSTER_NAME"] ++ [pyUpper "TESTS_MATCH"]
        ++ [pyUpper "GKE_CLUSTER_VERSION"] : List String)
      = ["ELASTIC_DOCKER_LOGIN", "ELASTIC_DOCKER_PASSWORD", "AWS_ACCESS_KEY_ID",
         "AWS_SECRET_ACCESS_KEY", "GKE_SERVICE_ACCOUNT_KEY_FILE",
         "OPERATOR_IMAGE", "LATEST_RELEASED_IMG", "VERSION", "SNAPSHOT",
         "GCLOUD_PROJECT", "REGISTRY", "REPOSITORY", "IMG_SUFFIX",
         "GKE_CLUSTER_NAME", "TESTS_MATCH", "GKE_CLUSTER_VERSION"] := by decide
  rw [h2] at h1
  have h3 : masterKeyOrder
      = ["ELASTIC_DOCKER_LOGIN", "ELASTIC_DOCKER_PASSWORD", "AWS_ACCESS_KEY_ID",
         "AWS_SECRET_ACCESS_KEY", "GKE_SERVICE_ACCOUNT_KEY_FILE",
         "OPERATOR_IMAGE", "LATEST_RELEASED_IMG", "VERSION", "SNAPSHOT",
         "GCLOUD_PROJECT", "REGISTRY", "REPOSITORY", "IMG_SUFFIX",
         "GKE_CLUSTER_NAME", "TESTS_MATCH", "GKE_CLUSTER_VERSION"]
        ++ ["STACK_VERSION", "SKIP_DOCKER_COMMAND"] := by decide
  rw [h3]
  exact h1.trans (List.sublist_append_left _ _)

end EnvFile

namespace Reaper

lemma hasNameZone_spec (x : PyJson) (h : hasNameZone x = true) :
    ∃ nj z, pyGetItem x "name" = .ok nj ∧ pyGetItem x "zone" = .ok (.str z) := by
  unfold hasNameZone at h
  cases hname : pyGetItem x "name" with
  | error u => rw [hname] at h; simp at h
  | ok nj =>
    cases hzone : pyGetItem x "zone" with
    | error u => rw [hname, hzone] at h; simp at h
    | ok zj =>
      cases zj with
      | str z => exact ⟨nj, z, rfl, rfl⟩
      | null => rw [hname, hzone] at h; simp at h
      | bool b => rw [hname, hzone] at h; simp at h
      | num l => rw [hname, hzone] at h; simp at h
      | arr xs => rw [hname, hzone] at h; simp at h
      | obj kvs => rw [hname, hzone] at h; simp at h

lemma entryEvent_eq (p : String) (x nj : PyJson) (z : String)
    (hname : pyGetItem x "name" = .ok nj)
    (hzone : pyGetItem x "zone" = .ok (.str z)) :
    entryEvent p x = some (.deleteDisk (pyStr nj) p (splitTail z)) := by
  unfold entryEvent
  rw [hname, hzone]

lemma processEntries_cons_ok (p c : String) (e : PyJson) (rest : List PyJson)
    (nj : PyJson) (z : String)
    (hname : pyGetItem e "name" = .ok nj)
    (hzone : pyGetItem e "zone" = .ok (.str z)) :
    processEntries p c (e :: rest)
      = .deleteDisk (pyStr nj) p (splitTail z) :: processEntries p c rest := by
  simp only [processEntries, hname, hzone]

lemma processEntries_cons_err (p c : String) (e : PyJson) (rest : List PyJson)
    (hdef : pyGetItem e "name" = .error () ∨ pyGetItem e "zone" = .error ()) :
    processEntries p c (e :: rest) = [.print cantParseMsg, .print c] := by
  rcases hdef with h | h
  · simp only [processEntries, h]
  · cases hname : pyGetItem e "name" with
    | error u => simp only [processEntries, hname]
    | ok nj => simp only [processEntries, hname, h]

lemma processEntries_wf_append (p c : String) (rest : List PyJson) :
    ∀ pre : List PyJson, (∀ x ∈ pre, hasNameZone x = true) →
      processEntries p c (pre ++ rest) =
        pre.filterMap (entryEvent p) ++ processEntries p c rest := by
  intro pre
  induction pre with
  | nil => intro _; simp
  | cons x xs ih =>
    intro hwf
    obtain ⟨nj, z, hname, hzone⟩ := hasNameZone_spec x (hwf x (by simp))
    have hxs : ∀ y ∈ xs, hasNameZone y = true := fun y hy => hwf y (by simp [hy])
    rw [List.cons_append, processEntries_cons_ok p c _ _ _ _ hname hzone, ih hxs,
        List.filterMap_cons, entryEvent_eq p x nj z hname hzone]
    simp

lemma reaperRun_some (env : String → Option String) (p content : String)
    (hp : env "GCLOUD_PROJECT" = some p) :
    reaperRun env content = (Event.listDisks p :: reaperBody p content, false) := by
  unfold reaperRun
  rw [hp]

lemma reaperRun_wf_split (env : String → Option String) (p content : String)
    (pre rest : List PyJson)
    (hp : env "GCLOUD_PROJECT" = some p)
    (hparse : parseJson content = some (.arr (pre ++ rest)))
    (hne : rest ≠ [])
    (hwf : ∀ x ∈ pre, hasNameZone x = true) :
    reaperRun env content =
      (.listDisks p ::
        (pre.filterMap (entryEvent p) ++ processEntries p content rest), false) := by
  have hrest : rest.length ≠ 0 := by
    cases rest with
    | nil => cases hne rfl
    | cons a l => simp
  have hpos : (pre ++ rest).length ≠ 0 := by
    rw [List.length_append]
    omega
  have hbody : reaperBody p content
      = pre.filterMap (entryEvent p) ++ processEntries p content rest := by
    unfold reaperBody
    rw [hparse]
    show (if (pre ++ rest).length = 0 then [Event.print congratsMsg]
      else processEntries p content (pre ++ rest)) = _
    rw [if_neg hpos]
    exact processEntries_wf_append p content rest pre hwf
  rw [reaperRun_some env p content hp, hbody]

/-- Claim C2: when the intermediate file content does not parse as JSON the
run lists the disks, prints the fixed message and the exact raw content,
issues no deletion command, and ends without a crash. -/
theorem C2_parse_failure (env : String → Option String) (p content : String)
    (hp : env "GCLOUD_PROJECT" = some p)
    (hparse : parseJson content = none) :
    reaperRun env content
      = ([.listDisks p, .print cantParseMsg, .print content], false) ∧
    (reaperRun env content).1.countP Event.isDelete = 0 := by
  have hbody : reaperBody p content = [.print cantParseMsg, .print content] := by
    unfold reaperBody
    rw [hparse]
  constructor
  · rw [reaperRun_some env p content hp, hbody]
  · rw [reaperRun_some env p content hp, hbody]
    rfl

/-- Witness for C2 at content that is not JSON. -/
theorem C2_witness :
    reaperRun (fun v => if v = "GCLOUD_PROJECT" then some "my-project" else none)
        "not json"
      = ([.listDisks "my-project", .print cantParseMsg, .print "not json"], false) ∧
    (reaperRun (fun v => if v = "GCLOUD_PROJECT" then some "my-project" else none)
        "not json").1.countP Event.isDelete = 0 :=
  C2_parse_failure _ "my-project" "not json" rfl rfl

/-- Claim C6: when the listing parses as an empty JSON array the run prints
the success message and issues no deletion command. -/
theorem C6_empty_listing (env : String → Option String) (p content : String)
    (hp : env "GCLOUD_PROJECT" = some p)
    (hparse : parseJson content = some (.arr [])) :
    reaperRun env content = ([.listDisks p, .print congratsMsg], false) ∧
    (reaperRun env content).1.countP Event.isDelete = 0 := by
  have hbody : reaperBody p content = [.print congratsMsg] := by
    unfold reaperBody
    rw [hparse]
    rfl
  constructor
  · rw [reaperRun_some env p content hp, hbody]
  · rw [reaperRun_some env p content hp, hbody]
    rfl

/-- Witness for C6 at the literal empty-array content. -/
theorem C6_witness :
    reaperRun (fun v => if v = "GCLOUD_PROJECT" then some "my-project" else none) "[]"
      = ([.listDisks "my-project", .print congratsMsg], false) ∧
    (reaperRun (fun v => if v = "GCLOUD_PROJECT" then some "my-project" else none)
        "[]").1.countP Event.isDelete = 0 :=
  C6_empty_listing _ "my-project" "[]" rfl rfl

/-- Claim C7: a run crashes exactly when GCLOUD_PROJECT is unset, and then no
external command has been issued; with the variable set, no internal failure
escapes the run. -/
theorem C7_only_hard_failure (env : String → Option String) (content : String) :
    ((reaperRun env content).2 = true ↔ env "GCLOUD_PROJECT" = none) ∧
    (env "GCLOUD_PROJECT" = none → reaperRun env content = ([], true)) := by
  cases h : env "GCLOUD_PROJECT" with
  | none =>
    unfold reaperRun
    rw [h]
    simp
  | some p =>
    unfold reaperRun
    rw [h]
    simp

/-- Witness for C7 at an empty environment. -/
theorem C7_witness :
    ((reaperRun (fun _ => none) "[]").2 = true ↔
      (fun _ => none : String → Option String) "GCLOUD_PROJECT" = none) ∧
    ((fun _ => none : String → Option String) "GCLOUD_PROJECT" = none →
      reaperRun (fun _ => none) "[]" = ([], true)) :=
  C7_only_hard_failure (fun _ => none) "[]"

end Reaper

namespace Reaper

/-- Claim C3: a parsed array whose first defective entry lacks a name or zone
binding is processed up to that entry: every earlier entry gets its deletion
command, then the same handler as a parse failure prints the fixed message
and the raw content, and the run ends without a crash. -/
theorem C3_defective_entry (env : String → Option String) (p content : String)
    (pre post : List PyJson) (e : PyJson)
    (hp : env "GCLOUD_PROJECT" = some p)
    (hparse : parseJson content = some (.arr (pre ++ e :: post)))
    (hwf : ∀ x ∈ pre, hasNameZone x = true)
    (hdef : pyGetItem e "name" = .error () ∨ pyGetItem e "zone" = .error ()) :
    reaperRun env content
      = (.listDisks p :: (pre.filterMap (entryEvent p)
          ++ [.print cantParseMsg, .print content]), false) := by
  rw [reaperRun_wf_split env p content pre (e :: post) hp hparse (by simp) hwf,
      processEntries_cons_err p content e post hdef]

/-- Witness for C3 at a one-entry array whose entry has no name binding. -/
theorem C3_witness :
    reaperRun (fun v => if v = "GCLOUD_PROJECT" then some "p" else none)
        "[\x7b\"zone\":\"a/b\"\x7d]"
      = ([.listDisks "p", .print cantParseMsg,
          .print "[\x7b\"zone\":\"a/b\"\x7d]"], false) := by
  have h := C3_defective_entry
    (fun v => if v = "GCLOUD_PROJECT" then some "p" else none)
    "p" "[\x7b\"zone\":\"a/b\"\x7d]" [] [] (.obj [("zone", .str "a/b")])
    rfl rfl (by simp) (Or.inl rfl)
  simpa using h

/-- Claim C4 fails as stated: in the two-entry array below the second entry
has both a name and a path-like zone, yet the run issues zero deletion
commands because the first entry aborts the loop. -/
theorem C4_counterexample :
    parseJson "[\x7b\x7d,\x7b\"name\":\"d1\",\"zone\":\"a/b\"\x7d]"
      = some (.arr [.obj [], .obj [("name", .str "d1"), ("zone", .str "a/b")]]) ∧
    hasNameZone (.obj [("name", .str "d1"), ("zone", .str "a/b")]) = true ∧
    (reaperRun (fun v => if v = "GCLOUD_PROJECT" then some "p" else none)
        "[\x7b\x7d,\x7b\"name\":\"d1\",\"zone\":\"a/b\"\x7d]").1.countP
      Event.isDelete = 0 :=
  ⟨rfl, rfl, rfl⟩

/-- Claim C4 (amended): for every parsed JSON array entry with a name binding
and a string zone binding, provided every preceding entry also has both (the
loop aborts at the first defective entry, see C3), the run issues the
deletion command carrying that name and the final path segment of the zone;
in particular the single-entry instance of the claim deletes disk d1 in zone
us-central1-a. -/
theorem C4_amended (env : String → Option String) (p content : String)
    (pre post : List PyJson) (e nj : PyJson) (z : String)
    (hp : env "GCLOUD_PROJECT" = some p)
    (hparse : parseJson content = some (.arr (pre ++ e :: post)))
    (hwf : ∀ x ∈ pre, hasNameZone x = true)
    (hname : pyGetItem e "name" = .ok nj)
    (hzone : pyGetItem e "zone" = .ok (.str z)) :
    Event.deleteDisk (pyStr nj) p (splitTail z) ∈ (reaperRun env content).1 := by
  rw [reaperRun_wf_split env p content pre (e :: post) hp hparse (by simp) hwf]
  simp only [processEntries_cons_ok p content e post nj z hname hzone]
  simp

/-- Witness for C4 (amended) at the instance named by the claim. -/
theorem C4_witness :
    Event.deleteDisk "d1" "my-project" "us-central1-a" ∈
      (reaperRun (fun v => if v = "GCLOUD_PROJECT" then some "my-project" else none)
        "[\x7b\"name\":\"d1\",\"zone\":\"projects/p/zones/us-central1-a\"\x7d]").1 := by
  have h := C4_amended
    (fun v => if v = "GCLOUD_PROJECT" then some "my-project" else none)
    "my-project" "[\x7b\"name\":\"d1\",\"zone\":\"projects/p/zones/us-central1-a\"\x7d]"
    [] [] (.obj [("name", .str "d1"), ("zone", .str "projects/p/zones/us-central1-a")])
    (.str "d1") "projects/p/zones/us-central1-a"
    rfl rfl (by simp) rfl rfl
  exact h

end Reaper
